import Mathlib

/-!
Shallow embedding of `ctkXnatFile` (Libs/XNAT/Core/ctkXnatFile.cpp),
centred on the verified-upload routine `ctkXnatFile::saveImpl`
(lines 154-243).  The resource state, the local filesystem, and the
transport responses are explicit inputs; the transport calls issued by
the routine are returned as an explicit trace.
-/

/-- Constant `ctkXnatFile::FILE_NAME` (line 32). -/
def FILE_NAME : String := "Name"

/-- Constant `ctkXnatFile::FILE_TAGS` (line 33). -/
def FILE_TAGS : String := "file_tags"

/-- Constant `ctkXnatFile::FILE_FORMAT` (line 34). -/
def FILE_FORMAT : String := "file_format"

/-- Constant `ctkXnatFile::FILE_CONTENT` (line 35). -/
def FILE_CONTENT : String := "file_content"

/-- State of one `ctkXnatFile` resource as `saveImpl` reads it.
`properties` is the property store of the base object in its iteration
order (modelled from the spec: an ordered mapping of string keys to
string values living in the base class, which is not part of the file
under analysis); `schemaType` is the value returned by
`this->schemaType()`; `existsRemote` is the flag returned by
`this->exists()` (modelled from the spec: true iff the resource is
known to already exist remotely); `parentUri` is the value returned by
`parent()->resourceUri()`. -/
structure ctkXnatFile where
  properties : List (String × String)
  localFilePath : String
  schemaType : String
  existsRemote : Bool
  parentUri : String
  deriving DecidableEq

/-- Modelled from the spec: the generic property lookup of the base
object, returning the stored value for a key, or the empty string when
the key is absent. -/
def ctkXnatFile.property (f : ctkXnatFile) (k : String) : String :=
  (List.lookup k f.properties).getD ""

/-- `ctkXnatFile::name` (lines 73-76): the property stored under
`FILE_NAME`. -/
def ctkXnatFile.name (f : ctkXnatFile) : String :=
  f.property FILE_NAME

/-- `ctkXnatFile::fileFormat` (lines 85-88). -/
def ctkXnatFile.fileFormat (f : ctkXnatFile) : String :=
  f.property FILE_FORMAT

/-- `ctkXnatFile::fileContent` (lines 97-100). -/
def ctkXnatFile.fileContent (f : ctkXnatFile) : String :=
  f.property FILE_CONTENT

/-- `ctkXnatFile::fileTags` (lines 109-112). -/
def ctkXnatFile.fileTags (f : ctkXnatFile) : String :=
  f.property FILE_TAGS

/-- `ctkXnatFile::resourceUri` (lines 129-132):
`QString("%1/files/%2").arg(parent()->resourceUri(), this->name())`.
The two-QString overload of `QString::arg` substitutes the two place
markers of the fixed format string in one pass. -/
def ctkXnatFile.resourceUri (f : ctkXnatFile) : String :=
  f.parentUri ++ "/files/" ++ f.name

/-- `QString("<sep>%1=%2").arg(k, v)` for the two-QString overload of
`QString::arg` applied to the fixed format strings `"?%1=%2"` and
`"&%1=%2"` used in `saveImpl`: the result is `sep ++ k ++ "=" ++ v`
(substitution is positional and single-pass, so the contents of `k`
and `v` are never re-scanned). -/
def qArg2 (sep k v : String) : String :=
  sep ++ k ++ "=" ++ v

/-- Line 191: `QString("&%1=%2").arg("overwrite", true)`.  A C++ `bool`
has no implicit conversion to `QString`, so overload resolution cannot
pick the two-QString `arg`; it selects
`arg(const QString &, int fieldWidth, QChar fillChar)` with
`fieldWidth = 1`.  That overload substitutes only the lowest place
marker `%1` (and `"overwrite"` is longer than the field width, so no
padding is added), leaving `%2` in the text.  The string actually
appended to the query is therefore `"&overwrite=%2"`. -/
def overwriteArg : String := "&overwrite=%2"

/-- The property loop of `saveImpl` (lines 172-184): iterate the
property map, skip the three reserved keys (`continue`), and append
`"&key=value"` to the accumulated query for every other pair. -/
def appendProps (query : String) : List (String × String) → String
  | [] => query
  | p :: rest =>
    if p.1 == FILE_TAGS || p.1 == FILE_FORMAT || p.1 == FILE_CONTENT then
      appendProps query rest
    else
      appendProps (query ++ qArg2 "&" p.1 p.2) rest

/-- The upload query built by `saveImpl` (lines 157, 169-194): the
resource URI, then `?xsi:type=<schemaType>`, the property loop, the
remapped `format`/`content`/`tags` parameters, the overwrite parameter
when `this->exists()` is true (see `overwriteArg` for its actual
text), and the trailing `inbody=true`. -/
def buildQuery (f : ctkXnatFile) : String :=
  appendProps (f.resourceUri ++ qArg2 "?" "xsi:type" f.schemaType) f.properties
    ++ qArg2 "&" "format" f.fileFormat
    ++ qArg2 "&" "content" f.fileContent
    ++ qArg2 "&" "tags" f.fileTags
    ++ (if f.existsRemote then overwriteArg else "")
    ++ qArg2 "&" "inbody" "true"

/-- Helper for the reverse catalog scan: the records in the order the
scan visits them (last record first).  Returns the value found by
`QMap::find(this->name())` in the first visited record that contains
the key, and the sentinel `"0"` when no visited record contains it. -/
def findChecksumRev (n : String) : List (List (String × String)) → String
  | [] => "0"
  | record :: rest =>
    match List.lookup n record with
    | some v => v
    | none => findChecksumRev n rest

/-- The catalog scan of `saveImpl` (lines 205-219): `md5ChecksumRemote`
starts as `"0"`; the iterator starts at `constEnd()-1` and walks
backwards until `constBegin()-1`, breaking at the first record whose
map contains the key `this->name()`, whose value it takes.  On an
empty list the iterator starts where it stops, so the loop body runs
zero times. -/
def findChecksum (n : String) (result : List (List (String × String))) : String :=
  findChecksumRev n result.reverse

/-- Environment of one `saveImpl` call: the local filesystem as the
two `QFile` operations observe it (`file.exists()` at line 162,
`file.open(QFile::ReadOnly)` at line 221, `file.readAll()` at line
226) and the catalog record list the session returns for the
`httpGet`/`httpSync` pair (lines 202-203). -/
structure LocalEnv where
  fileExists : Bool
  fileOpenable : Bool
  fileContent : String
  catalog : List (List (String × String))

/-- One transport/session call issued by `saveImpl`, in issue order:
`session()->upload` (line 196), `session()->httpGet` (line 202),
`session()->httpSync` (line 203), and `this->erase()` (line 233,
modelled from the spec: a best-effort deletion of the remote file at
the resource URI that leaves the local object state untouched). -/
inductive TransportCall where
  | upload (filename query : String)
  | httpGet (uri : String)
  | httpSync
  | eraseCall (uri : String)
  deriving DecidableEq

/-- Outcome of one `saveImpl` call.  `localFileMissing` is the
`ctkXnatException` thrown at line 166; `integrityMismatch` is the
`ctkXnatException` thrown at line 234; `ok validated` is normal
return, with `validated = false` exactly when the
`"Could not validate file upload!"` warning of line 239 was logged. -/
inductive SaveOutcome where
  | localFileMissing
  | integrityMismatch
  | ok (validated : Bool)
  deriving DecidableEq

/-- `ctkXnatFile::saveImpl` (lines 154-243), with the MD5 computation
of lines 223-227 abstracted as the parameter `md5hex` (modelled from
the spec: `QCryptographicHash` MD5 over the whole file content,
hex-encoded — library code outside the file under analysis).  Returns
the outcome, the trace of transport calls in issue order, and the
resource state after the call (the routine only reads the resource,
so every branch returns `f`). -/
def ctkXnatFile.saveImpl (f : ctkXnatFile) (env : LocalEnv)
    (md5hex : String → String) :
    SaveOutcome × List TransportCall × ctkXnatFile :=
  let filename := f.localFilePath
  if !env.fileExists then
    (SaveOutcome.localFileMissing, [], f)
  else
    let query := buildQuery f
    let calls := [TransportCall.upload filename query,
                  TransportCall.httpGet f.parentUri,
                  TransportCall.httpSync]
    let md5ChecksumRemote := findChecksum f.name env.catalog
    if env.fileOpenable && (md5ChecksumRemote != "0") then
      let md5ChecksumLocal := md5hex env.fileContent
      if md5ChecksumLocal != md5ChecksumRemote then
        (SaveOutcome.integrityMismatch,
         calls ++ [TransportCall.eraseCall f.resourceUri], f)
      else
        (SaveOutcome.ok true, calls, f)
    else
      (SaveOutcome.ok false, calls, f)

/-- Number of deletion calls in a transport trace. -/
def countErase : List TransportCall → Nat
  | [] => 0
  | TransportCall.eraseCall _ :: rest => countErase rest + 1
  | _ :: rest => countErase rest

/-- Substring containment on strings, used to state which parameters
appear in a built query. -/
def strContains (s t : String) : Prop :=
  t.data <:+: s.data

instance (s t : String) : Decidable (strContains s t) :=
  inferInstanceAs (Decidable (t.data <:+: s.data))

/-! ### Specification-side description of the metadata parameters

`emitPairs` and `specMetadataParams` follow the words of the spec:
each metadata pair except the three reserved keys is emitted exactly
once, as `&key=value`, in the iteration order of the map.  They are
compared with the property loop `appendProps` translated from the
source. -/

/-- Emit one `&key=value` fragment per pair, in list order. -/
def emitPairs : List (String × String) → String
  | [] => ""
  | p :: rest => "&" ++ p.1 ++ "=" ++ p.2 ++ emitPairs rest

/-- The metadata section of the query as the spec describes it: every
pair of the property map whose key is none of the three reserved keys,
each emitted exactly once, in the map's iteration order. -/
def specMetadataParams (props : List (String × String)) : String :=
  emitPairs (props.filter fun p =>
    !(p.1 == FILE_TAGS || p.1 == FILE_FORMAT || p.1 == FILE_CONTENT))

theorem appendProps_eq (ps : List (String × String)) (q : String) :
    appendProps q ps = q ++ specMetadataParams ps := by
  induction ps generalizing q with
  | nil => simp [appendProps, specMetadataParams, emitPairs]
  | cons p rest ih =>
    by_cases h : (p.1 == FILE_TAGS || p.1 == FILE_FORMAT || p.1 == FILE_CONTENT) = true
    · have h2 : (p.1 = FILE_TAGS ∨ p.1 = FILE_FORMAT) ∨ p.1 = FILE_CONTENT := by
        simpa using h
      have hcond : ¬((¬p.1 = FILE_TAGS ∧ ¬p.1 = FILE_FORMAT) ∧ ¬p.1 = FILE_CONTENT) := by
        tauto
      simp [appendProps, specMetadataParams, List.filter_cons, h, hcond, ih]
    · simp only [Bool.not_eq_true] at h
      have hcond : (¬p.1 = FILE_TAGS ∧ ¬p.1 = FILE_FORMAT) ∧ ¬p.1 = FILE_CONTENT := by
        simpa using h
      simp [appendProps, specMetadataParams, List.filter_cons, h, hcond, ih,
        emitPairs, qArg2, String.append_assoc]

/-- Reverse scan of records that all lack the key `n` skips them. -/
theorem findChecksumRev_append_none (n : String)
    (l l' : List (List (String × String)))
    (h : ∀ r ∈ l, List.lookup n r = none) :
    findChecksumRev n (l ++ l') = findChecksumRev n l' := by
  induction l with
  | nil => simp
  | cons r rest ih =>
    simp only [List.cons_append, findChecksumRev]
    rw [h r (by simp)]
    exact ih fun r' hr' => h r' (by simp [hr'])

/-- The catalog scan returns the value of the last record containing
the key, whenever every record after it lacks the key. -/
theorem findChecksum_last_match (n v : String)
    (l1 l2 : List (List (String × String))) (r : List (String × String))
    (hr : List.lookup n r = some v)
    (h2 : ∀ r' ∈ l2, List.lookup n r' = none) :
    findChecksum n (l1 ++ r :: l2) = v := by
  unfold findChecksum
  rw [List.reverse_append, List.reverse_cons, List.append_assoc,
    findChecksumRev_append_none n l2.reverse _
      (fun r' h' => h2 r' (List.mem_reverse.mp h'))]
  simp [findChecksumRev, hr]

/-- C2: for every property map, the upload query is exactly the
resource URI followed by `?xsi:type=<schemaType>`, then each metadata
pair except the three reserved keys exactly once in the map's
iteration order (`specMetadataParams`), then `format=<fileFormat>`,
`content=<fileContent>`, `tags=<fileTags>`, then the optional
overwrite parameter (present iff the resource already exists
remotely; its actual text is `&overwrite=%2`, see `overwriteArg`),
ending with `inbody=true`.  The equality pins the whole string, so no
pair is duplicated and none appears out of this order. -/
theorem buildQuery_parameter_order (f : ctkXnatFile) :
    buildQuery f =
      f.resourceUri ++ "?xsi:type=" ++ f.schemaType
        ++ specMetadataParams f.properties
        ++ "&format=" ++ f.fileFormat
        ++ "&content=" ++ f.fileContent
        ++ "&tags=" ++ f.fileTags
        ++ (if f.existsRemote then "&overwrite=%2" else "")
        ++ "&inbody=true" := by
  have h1 : ∀ v, qArg2 "?" "xsi:type" v = "?xsi:type=" ++ v := fun _ => rfl
  have h2 : ∀ v, qArg2 "&" "format" v = "&format=" ++ v := fun _ => rfl
  have h3 : ∀ v, qArg2 "&" "content" v = "&content=" ++ v := fun _ => rfl
  have h4 : ∀ v, qArg2 "&" "tags" v = "&tags=" ++ v := fun _ => rfl
  have h5 : qArg2 "&" "inbody" "true" = "&inbody=true" := rfl
  simp only [buildQuery, appendProps_eq, overwriteArg, h1, h2, h3, h4, h5,
    String.append_assoc]

/-- C3: when the local file does not exist, `saveImpl` throws the
missing-file exception and issues no transport call at all: the
trace is empty and the resource is untouched. -/
theorem saveImpl_missing_local_file (f : ctkXnatFile) (env : LocalEnv)
    (md5hex : String → String) (h : env.fileExists = false) :
    f.saveImpl env md5hex = (SaveOutcome.localFileMissing, [], f) := by
  simp [ctkXnatFile.saveImpl, h]

/-- C10: `saveImpl` reads but never writes the resource state: for
every environment and every outcome, the resource returned by the
call (its property store, hence name, fileFormat, fileContent,
fileTags and all other metadata pairs, and its localFilePath) is the
resource passed in. -/
theorem saveImpl_preserves_resource_state (f : ctkXnatFile)
    (env : LocalEnv) (md5hex : String → String) :
    (f.saveImpl env md5hex).2.2 = f := by
  simp only [ctkXnatFile.saveImpl]
  split_ifs <;> rfl

/-! ### Evaluation lemmas for the three post-upload paths -/

/-- When the upload happened but the file cannot be reopened or the
remote checksum is the sentinel, `saveImpl` takes the warning branch
of line 239 and returns normally with three transport calls. -/
theorem saveImpl_eval_skip (f : ctkXnatFile) (env : LocalEnv)
    (md5hex : String → String) (hex : env.fileExists = true)
    (hcond : (env.fileOpenable
      && (findChecksum f.name env.catalog != "0")) = false) :
    f.saveImpl env md5hex =
      (SaveOutcome.ok false,
       [TransportCall.upload f.localFilePath (buildQuery f),
        TransportCall.httpGet f.parentUri, TransportCall.httpSync], f) := by
  simp [ctkXnatFile.saveImpl, hex, hcond]

/-- When verification runs and the local digest differs from the
remote checksum, `saveImpl` erases the remote file and throws. -/
theorem saveImpl_eval_mismatch (f : ctkXnatFile) (env : LocalEnv)
    (md5hex : String → String) (hex : env.fileExists = true)
    (hop : env.fileOpenable = true)
    (hr : findChecksum f.name env.catalog ≠ "0")
    (hm : md5hex env.fileContent ≠ findChecksum f.name env.catalog) :
    f.saveImpl env md5hex =
      (SaveOutcome.integrityMismatch,
       [TransportCall.upload f.localFilePath (buildQuery f),
        TransportCall.httpGet f.parentUri, TransportCall.httpSync,
        TransportCall.eraseCall f.resourceUri], f) := by
  simp [ctkXnatFile.saveImpl, hex, hop, hr, hm]

/-- When verification runs and the local digest equals the remote
checksum, `saveImpl` returns normally with three transport calls. -/
theorem saveImpl_eval_match (f : ctkXnatFile) (env : LocalEnv)
    (md5hex : String → String) (hex : env.fileExists = true)
    (hop : env.fileOpenable = true)
    (hr : findChecksum f.name env.catalog ≠ "0")
    (hm : md5hex env.fileContent = findChecksum f.name env.catalog) :
    f.saveImpl env md5hex =
      (SaveOutcome.ok true,
       [TransportCall.upload f.localFilePath (buildQuery f),
        TransportCall.httpGet f.parentUri, TransportCall.httpSync], f) := by
  simp [ctkXnatFile.saveImpl, hex, hop, hr, hm]

/-- C4: when the remote checksum found in the catalog is not the
sentinel `"0"`, the local file is readable, and the local MD5 hex
digest differs from the remote checksum, `saveImpl` issues exactly one
deletion call, for the resource URI, after the three transport calls,
and fails with the integrity-mismatch exception. -/
theorem saveImpl_checksum_mismatch_erases_once (f : ctkXnatFile)
    (env : LocalEnv) (md5hex : String → String)
    (hex : env.fileExists = true) (hop : env.fileOpenable = true)
    (hr : findChecksum f.name env.catalog ≠ "0")
    (hm : md5hex env.fileContent ≠ findChecksum f.name env.catalog) :
    f.saveImpl env md5hex =
      (SaveOutcome.integrityMismatch,
       [TransportCall.upload f.localFilePath (buildQuery f),
        TransportCall.httpGet f.parentUri, TransportCall.httpSync,
        TransportCall.eraseCall f.resourceUri], f) ∧
    countErase (f.saveImpl env md5hex).2.1 = 1 := by
  have h := saveImpl_eval_mismatch f env md5hex hex hop hr hm
  exact ⟨h, by rw [h]; rfl⟩

/-- C5: when the catalog contains a record `r` holding the resource
name as a key with value `v`, and no record after `r` holds the name,
the reverse scan stops at `r`: the remote checksum is `v`, and (when
verification runs, i.e. the file is readable and `v` is not the
sentinel) the upload fails with the integrity mismatch exactly when
the local digest differs from `v` — so `v` is the value compared, no
matter how many earlier records also match the name. -/
theorem remote_checksum_is_last_matching_record (f : ctkXnatFile)
    (env : LocalEnv) (md5hex : String → String)
    (l1 l2 : List (List (String × String))) (r : List (String × String))
    (v : String)
    (hcat : env.catalog = l1 ++ r :: l2)
    (hr : List.lookup f.name r = some v)
    (h2 : ∀ r' ∈ l2, List.lookup f.name r' = none)
    (hex : env.fileExists = true) (hop : env.fileOpenable = true)
    (hv : v ≠ "0") :
    findChecksum f.name env.catalog = v ∧
    ((f.saveImpl env md5hex).1 = SaveOutcome.integrityMismatch ↔
      md5hex env.fileContent ≠ v) := by
  have hfc : findChecksum f.name env.catalog = v := by
    rw [hcat]; exact findChecksum_last_match _ _ _ _ _ hr h2
  refine ⟨hfc, ?_⟩
  by_cases hm : md5hex env.fileContent = v
  · rw [saveImpl_eval_match f env md5hex hex hop (hfc ▸ hv) (hm.trans hfc.symm)]
    simp [hm]
  · rw [saveImpl_eval_mismatch f env md5hex hex hop (hfc ▸ hv)
      (fun hc => hm (hc.trans hfc))]
    simp [hm]

/-- C6: when the last catalog record matching the resource name
carries a checksum equal to the local MD5 hex digest (and that
checksum is not the sentinel `"0"`) and the local file is readable,
the upload succeeds, validated, and issues no deletion call. -/
theorem saveImpl_checksum_match_succeeds (f : ctkXnatFile)
    (env : LocalEnv) (md5hex : String → String)
    (l1 l2 : List (List (String × String))) (r : List (String × String))
    (hex : env.fileExists = true) (hop : env.fileOpenable = true)
    (hcat : env.catalog = l1 ++ r :: l2)
    (hr : List.lookup f.name r = some (md5hex env.fileContent))
    (h2 : ∀ r' ∈ l2, List.lookup f.name r' = none)
    (hv : md5hex env.fileContent ≠ "0") :
    (f.saveImpl env md5hex).1 = SaveOutcome.ok true ∧
    countErase (f.saveImpl env md5hex).2.1 = 0 := by
  have hfc : findChecksum f.name env.catalog = md5hex env.fileContent := by
    rw [hcat]; exact findChecksum_last_match _ _ _ _ _ hr h2
  have h := saveImpl_eval_match f env md5hex hex hop (hfc ▸ hv) hfc.symm
  exact ⟨by rw [h], by rw [h]; rfl⟩

/-- C7: when the local file cannot be reopened for reading, or the
remote checksum is the sentinel `"0"` (in particular when no catalog
record contains the resource name), verification is skipped: the
upload returns normally with the could-not-validate warning
(`SaveOutcome.ok false`) and no deletion call is issued. -/
theorem saveImpl_verification_skipped (f : ctkXnatFile)
    (env : LocalEnv) (md5hex : String → String)
    (hex : env.fileExists = true)
    (h : env.fileOpenable = false ∨ findChecksum f.name env.catalog = "0") :
    (f.saveImpl env md5hex).1 = SaveOutcome.ok false ∧
    countErase (f.saveImpl env md5hex).2.1 = 0 := by
  have hcond : (env.fileOpenable
      && (findChecksum f.name env.catalog != "0")) = false := by
    rcases h with h | h <;> simp [h]
  have hres := saveImpl_eval_skip f env md5hex hex hcond
  exact ⟨by rw [hres], by rw [hres]; rfl⟩

/-- C8: on the empty catalog result list the reverse scan runs its
body zero times and leaves the checksum at the sentinel `"0"`, so the
upload completes successfully with verification skipped and no
deletion call; the scan is a total function, so no record access and
no out-of-bounds step occurs. -/
theorem saveImpl_empty_catalog_safe (f : ctkXnatFile) (env : LocalEnv)
    (md5hex : String → String)
    (hex : env.fileExists = true) (hcat : env.catalog = []) :
    findChecksum f.name env.catalog = "0" ∧
    (f.saveImpl env md5hex).1 = SaveOutcome.ok false ∧
    countErase (f.saveImpl env md5hex).2.1 = 0 := by
  have h0 : findChecksum f.name env.catalog = "0" := by rw [hcat]; rfl
  have hcond : (env.fileOpenable
      && (findChecksum f.name env.catalog != "0")) = false := by simp [h0]
  have hres := saveImpl_eval_skip f env md5hex hex hcond
  exact ⟨h0, by rw [hres], by rw [hres]; rfl⟩

/-- C9: when the last catalog record matching the resource name
stores the literal checksum value `"0"`, it collides with the
no-checksum sentinel: verification is skipped and the upload is
reported successful with no deletion call, even though the local
digest differs from every stored value. -/
theorem saveImpl_zero_checksum_sentinel_collision (f : ctkXnatFile)
    (env : LocalEnv) (md5hex : String → String)
    (l1 l2 : List (List (String × String))) (r : List (String × String))
    (hex : env.fileExists = true) (hop : env.fileOpenable = true)
    (hcat : env.catalog = l1 ++ r :: l2)
    (hr : List.lookup f.name r = some "0")
    (h2 : ∀ r' ∈ l2, List.lookup f.name r' = none)
    (hm : md5hex env.fileContent ≠ "0") :
    (f.saveImpl env md5hex).1 = SaveOutcome.ok false ∧
    countErase (f.saveImpl env md5hex).2.1 = 0 := by
  have h0 : findChecksum f.name env.catalog = "0" := by
    rw [hcat]; exact findChecksum_last_match _ _ _ _ _ hr h2
  have hcond : (env.fileOpenable
      && (findChecksum f.name env.catalog != "0")) = false := by simp [h0]
  have hres := saveImpl_eval_skip f env md5hex hex hcond
  exact ⟨by rw [hres], by rw [hres]; rfl⟩

/-! ### Concrete fixtures used by the closed evidence theorems -/

/-- A concrete resource flagged as already existing remotely. -/
def cfA : ctkXnatFile :=
  { properties := [("Name", "data.nii"), ("cache", "no"), ("file_format", "NIFTI")]
  , localFilePath := "/upload/data.nii"
  , schemaType := "xnat:fileData"
  , existsRemote := true
  , parentUri := "/data/proj/res1" }

/-- The same resource, not yet existing remotely. -/
def cfB : ctkXnatFile :=
  { cfA with existsRemote := false }

/-- Environment: local file present but not reopenable, empty catalog. -/
def envA : LocalEnv :=
  { fileExists := true, fileOpenable := false, fileContent := ""
  , catalog := [] }

/-- Environment: local file absent. -/
def envM : LocalEnv :=
  { fileExists := false, fileOpenable := false, fileContent := ""
  , catalog := [] }

/-- Environment: readable file, catalog holding checksum `"abc123"`
for `data.nii`. -/
def env4 : LocalEnv :=
  { fileExists := true, fileOpenable := true, fileContent := "payload"
  , catalog := [[("data.nii", "abc123")]] }

/-- Environment: readable file, two earlier records matching the name
and one trailing record that does not. -/
def env5 : LocalEnv :=
  { fileExists := true, fileOpenable := true, fileContent := "payload"
  , catalog := [[("data.nii", "early")], [("zzz", "2")]
               , [("data.nii", "late"), ("k", "v")], [("nope", "x")]] }

/-- Environment: readable file, last record carrying the matching
checksum `"abc123"`. -/
def env6 : LocalEnv :=
  { fileExists := true, fileOpenable := true, fileContent := "payload"
  , catalog := [[("zzz", "q")], [("data.nii", "abc123")]] }

/-- Environment: readable file, no catalog record containing the
resource name. -/
def env7 : LocalEnv :=
  { fileExists := true, fileOpenable := true, fileContent := "payload"
  , catalog := [[("zzz", "q")]] }

/-- Environment: readable file, empty catalog. -/
def env8 : LocalEnv :=
  { fileExists := true, fileOpenable := true, fileContent := "payload"
  , catalog := [] }

/-- Environment: readable file, matching record storing the literal
checksum `"0"`. -/
def env9 : LocalEnv :=
  { fileExists := true, fileOpenable := true, fileContent := "payload"
  , catalog := [[("data.nii", "0")]] }

/-- A digest oracle returning a value unequal to every checksum
stored in the fixtures. -/
def md5Bad : String → String := fun _ => "def456"

/-- A digest oracle returning the checksum stored in `env6`. -/
def md5Good : String → String := fun _ => "abc123"

set_option maxRecDepth 100000 in
/-- C1: evidence that the code misses the documented intent.  For a
resource flagged as already existing remotely, the upload call's query
contains the parameter text `&overwrite=%2` — the bool literal passed
to `QString::arg` at line 191 selects the field-width overload, which
never substitutes `%2` — and the text `overwrite=true` required by the
claim never appears.  The adjacent line 194 passes the string
`"true"` and correctly yields `inbody=true`, and the comment at line
189 states the intent of setting overwrite, so the claim matches the
intent and the code is a slip.  When the flag is false, no overwrite
parameter appears, as the claim says. -/
theorem overwrite_flag_misrendered :
    (cfA.saveImpl envA md5Bad).2.1.head? =
      some (TransportCall.upload "/upload/data.nii" (buildQuery cfA)) ∧
    strContains (buildQuery cfA) "&overwrite=%2" ∧
    ¬ strContains (buildQuery cfA) "overwrite=true" ∧
    ¬ strContains (buildQuery cfB) "overwrite" := by
  refine ⟨rfl, by decide, by decide, by decide⟩

/-- Witness for C3 at a concrete input: the local file is absent, the
outcome is the missing-file failure, the transport trace is empty. -/
theorem saveImpl_missing_local_file_witness :
    envM.fileExists = false ∧
    cfA.saveImpl envM md5Bad = (SaveOutcome.localFileMissing, [], cfA) :=
  ⟨rfl, saveImpl_missing_local_file cfA envM md5Bad rfl⟩

/-- Witness for C4 at a concrete input: remote checksum `"abc123"`,
local digest `"def456"`, so the upload fails with the integrity
mismatch and issues exactly one deletion call. -/
theorem saveImpl_checksum_mismatch_erases_once_witness :
    env4.fileExists = true ∧ env4.fileOpenable = true ∧
    findChecksum cfA.name env4.catalog ≠ "0" ∧
    md5Bad env4.fileContent ≠ findChecksum cfA.name env4.catalog ∧
    (cfA.saveImpl env4 md5Bad).1 = SaveOutcome.integrityMismatch ∧
    countErase (cfA.saveImpl env4 md5Bad).2.1 = 1 := by
  have h := saveImpl_checksum_mismatch_erases_once cfA env4 md5Bad rfl rfl
    (by decide) (by decide)
  exact ⟨rfl, rfl, by decide, by decide, by rw [h.1], h.2⟩

/-- Witness for C5 at a concrete input: an earlier record also matches
the name with value `"early"`, but the value compared is `"late"`,
taken from the last matching record. -/
theorem remote_checksum_is_last_matching_record_witness :
    env5.catalog =
      [[("data.nii", "early")], [("zzz", "2")]]
        ++ [("data.nii", "late"), ("k", "v")] :: [[("nope", "x")]] ∧
    List.lookup cfA.name [("data.nii", "late"), ("k", "v")] = some "late" ∧
    (∀ r' ∈ [[("nope", "x")]], List.lookup cfA.name r' = none) ∧
    findChecksum cfA.name env5.catalog = "late" ∧
    ((cfA.saveImpl env5 md5Bad).1 = SaveOutcome.integrityMismatch ↔
      md5Bad env5.fileContent ≠ "late") := by
  have h := remote_checksum_is_last_matching_record cfA env5 md5Bad
    [[("data.nii", "early")], [("zzz", "2")]] [[("nope", "x")]]
    [("data.nii", "late"), ("k", "v")] "late"
    rfl (by decide) (by decide) rfl rfl (by decide)
  exact ⟨rfl, by decide, by decide, h.1, h.2⟩

/-- Witness for C6 at a concrete input: the last record matching the
name carries `"abc123"`, the local digest is `"abc123"`, the upload
succeeds validated with no deletion call. -/
theorem saveImpl_checksum_match_succeeds_witness :
    env6.catalog = [[("zzz", "q")]] ++ [("data.nii", "abc123")] :: [] ∧
    List.lookup cfA.name [("data.nii", "abc123")] =
      some (md5Good env6.fileContent) ∧
    md5Good env6.fileContent ≠ "0" ∧
    (cfA.saveImpl env6 md5Good).1 = SaveOutcome.ok true ∧
    countErase (cfA.saveImpl env6 md5Good).2.1 = 0 := by
  have h := saveImpl_checksum_match_succeeds cfA env6 md5Good
    [[("zzz", "q")]] [] [("data.nii", "abc123")]
    rfl rfl rfl (by decide) (by decide) (by decide)
  exact ⟨rfl, by decide, by decide, h.1, h.2⟩

/-- Witness for C7 at a concrete input: no catalog record contains
the resource name, so verification is skipped, the upload succeeds
with the warning, and no deletion call is issued. -/
theorem saveImpl_verification_skipped_witness :
    (env7.fileOpenable = false ∨ findChecksum cfA.name env7.catalog = "0") ∧
    (cfA.saveImpl env7 md5Bad).1 = SaveOutcome.ok false ∧
    countErase (cfA.saveImpl env7 md5Bad).2.1 = 0 := by
  have h := saveImpl_verification_skipped cfA env7 md5Bad rfl
    (Or.inr (by decide))
  exact ⟨Or.inr (by decide), h.1, h.2⟩

/-- Witness for C8 at a concrete input: empty catalog, checksum stays
at the sentinel, upload succeeds with verification skipped and no
deletion call. -/
theorem saveImpl_empty_catalog_safe_witness :
    env8.catalog = [] ∧
    findChecksum cfA.name env8.catalog = "0" ∧
    (cfA.saveImpl env8 md5Bad).1 = SaveOutcome.ok false ∧
    countErase (cfA.saveImpl env8 md5Bad).2.1 = 0 := by
  have h := saveImpl_empty_catalog_safe cfA env8 md5Bad rfl rfl
  exact ⟨rfl, h.1, h.2.1, h.2.2⟩

/-- Witness for C9 at a concrete input: the matching record stores the
literal checksum `"0"`, the local digest is `"def456"`, yet the upload
is reported successful with verification skipped and no deletion. -/
theorem saveImpl_zero_checksum_sentinel_collision_witness :
    env9.catalog = [] ++ [("data.nii", "0")] :: [] ∧
    List.lookup cfA.name [("data.nii", "0")] = some "0" ∧
    md5Bad env9.fileContent ≠ "0" ∧
    (cfA.saveImpl env9 md5Bad).1 = SaveOutcome.ok false ∧
    countErase (cfA.saveImpl env9 md5Bad).2.1 = 0 := by
  have h := saveImpl_zero_checksum_sentinel_collision cfA env9 md5Bad
    [] [] [("data.nii", "0")] rfl rfl rfl (by decide) (by decide) (by decide)
  exact ⟨rfl, by decide, by decide, h.1, h.2⟩
